import Mathlib

/-!
Verification development for the libunifiedcore repository (Go).

The definitions below are a shallow embedding of the Go source:

* `core_types.go` / `unnamed/part_003` — `CoreType`, `ParseCoreType`,
  `DetectCoreTypeFromConfig` (JSON path), `isV2RayConfig`, `isXrayConfig`,
  `isMihomoConfig`;
* `unnamed/part_002` — `V2RayCoreManager.injectRequiredConfig`;
* `mihomo_core.go` — `MihomoCoreManager.injectRequiredConfig`,
  `MihomoCoreManager.RunConfig`/`Stop`;
* `v2ray_core.go` — `V2RayCoreManager.RunConfig`/`Stop`;
* `unnamed/part_000` (first revision, the one the line references of the
  design notes point into) — `UnifiedCoreManager.RunConfig`, `Stop`,
  `Restart`, `SwitchCoreType`, `SetPorts`, `setCoreType`.

JSON documents are modelled by the inductive `JValue`; Go maps
(`map[string]interface{}`) by association lists with a position-preserving
`set` (Go maps are unordered, so statements compare maps through `find`
or prove literal equality, which is stronger).  JSON numbers are modelled
as integers (the ports the code reads are integral).  `os.ReadFile` +
`json.Unmarshal` are modelled by an environment function returning either
a read error, a parse error, or the parsed document.  Wall-clock entropy
(`time.Now().Nanosecond()`) is an arbitrary natural number supplied by the
environment.  Goroutine scheduling and sleeps are not modelled: every
manager operation runs under the manager mutex in the source, so the
sequential semantics below is the behaviour of any serialized call
sequence.
-/

namespace LibUnifiedCore

/-! ### Small Go library helpers -/

/-- Model of `strconv.Atoi`, restricted to ASCII digits with an optional sign.
(Out-of-range errors of the 64-bit implementation are not modelled; the
code only parses port numbers.) -/
def goAtoi (s : String) : Option Int :=
  let cs := s.data
  let signed : Int × List Char :=
    match cs with
    | '+' :: rest => (1, rest)
    | '-' :: rest => (-1, rest)
    | _ => (1, cs)
  if signed.2.isEmpty then none
  else if signed.2.all Char.isDigit then
    some (signed.1 * signed.2.foldl (fun acc c => acc * 10 + ((c.toNat - '0'.toNat : Nat) : Int)) 0)
  else none

/-- The ASCII whitespace `strings.TrimSpace` strips (the code's alias
words and config fields contain no exotic Unicode whitespace). -/
def goSpace (c : Char) : Bool :=
  c = ' ' ∨ c = '\t' ∨ c = '\n' ∨ c = '\r'

/-- Model of `strings.TrimSpace`, ASCII fragment. -/
def goTrimSpace (s : String) : String :=
  String.mk (((s.data.dropWhile goSpace).reverse.dropWhile goSpace).reverse)

def goCharLower (c : Char) : Char :=
  if 'A' ≤ c ∧ c ≤ 'Z' then Char.ofNat (c.toNat + 32) else c

/-- Model of `strings.ToLower`, ASCII fragment: none of the alias words the code
compares against contains a character whose Unicode case folding differs
from the ASCII one. -/
def goToLower (s : String) : String :=
  String.mk (s.data.map goCharLower)

/-- Model of `strings.Contains hay pat`: `pat` occurs as a substring of `hay`. -/
def strContains (hay pat : String) : Bool :=
  hay.data.tails.any (fun t => pat.data.isPrefixOf t)

/-- Model of `filepath.Join` for the two-component calls the code makes (path
cleaning of `..` segments is not exercised by the code on these inputs). -/
def filepathJoin (a b : String) : String :=
  if a = "" then b else a ++ "/" ++ b

/-! ### CoreType (`core_types.go`) -/

/-- Go `type CoreType int`. -/
abbrev CoreType := Int

def CoreTypeV2Ray : CoreType := 0

def CoreTypeXray : CoreType := 1

def CoreTypeMihomo : CoreType := 2

/-- Model of `CoreTypeClash = CoreTypeMihomo` (legacy alias constant). -/
def CoreTypeClash : CoreType := CoreTypeMihomo

/-- Model of `func (ct CoreType) IsValid() bool`. -/
def CoreType.IsValid (ct : CoreType) : Bool :=
  decide (CoreTypeV2Ray ≤ ct ∧ ct ≤ CoreTypeMihomo)

/-- Model of `func (ct CoreType) DisplayName() string`. -/
def CoreType.DisplayName (ct : CoreType) : String :=
  if ct = CoreTypeV2Ray then "V2Ray"
  else if ct = CoreTypeXray then "Xray"
  else if ct = CoreTypeMihomo then "Mihomo"
  else "Unknown"

/-- Model of `func ParseCoreType(coreTypeStr string) (CoreType, error)`:
`switch strings.ToLower(strings.TrimSpace(coreTypeStr))`. -/
def ParseCoreType (coreTypeStr : String) : Except String CoreType :=
  if goToLower (goTrimSpace coreTypeStr) = "v2ray" then .ok CoreTypeV2Ray
  else if goToLower (goTrimSpace coreTypeStr) = "xray" then .ok CoreTypeXray
  else if goToLower (goTrimSpace coreTypeStr) = "mihomo" then .ok CoreTypeMihomo
  else if goToLower (goTrimSpace coreTypeStr) = "clash" ∨
          goToLower (goTrimSpace coreTypeStr) = "clash-meta" then
    .ok CoreTypeMihomo
  else .error ("unknown core type: " ++ coreTypeStr)

/-! ### JSON documents and Go maps -/

/-- A parsed JSON value (`interface{}` after `json.Unmarshal`). -/
inductive JValue where
  | null
  | bool (b : Bool)
  | num (n : Int)
  | str (s : String)
  | arr (xs : List JValue)
  | obj (fields : List (String × JValue))

/-- A Go `map[string]interface{}`, as an association list. -/
abbrev Jmap := List (String × JValue)

/-- Map lookup (`config[k]` together with the `exists` flag). -/
def Jmap.find (m : Jmap) (k : String) : Option JValue :=
  match m with
  | [] => none
  | (ka, v) :: rest => if ka = k then some v else Jmap.find rest k

/-- Map assignment `config[k] = v`: replaces the binding in place, or
appends when the key is absent.  (Go maps are unordered; the position
chosen here is irrelevant to every `find`-level statement.) -/
def Jmap.set (m : Jmap) (k : String) (v : JValue) : Jmap :=
  match m with
  | [] => [(k, v)]
  | (ka, va) :: rest => if ka = k then (ka, v) :: rest else (ka, va) :: Jmap.set rest k v

theorem Jmap.find_set_self (m : Jmap) (k : String) (v : JValue) :
    (m.set k v).find k = some v := by
  induction m with
  | nil => simp [Jmap.set, Jmap.find]
  | cons hd tl ih =>
      by_cases h : hd.1 = k
      · simp [Jmap.set, Jmap.find, h]
      · simp [Jmap.set, Jmap.find, h, ih]

theorem Jmap.find_set_ne (m : Jmap) (k ka : String) (v : JValue) (h : ¬ k = ka) :
    (m.set k v).find ka = m.find ka := by
  induction m with
  | nil => simp [Jmap.set, Jmap.find, h]
  | cons hd tl ih =>
      by_cases hh : hd.1 = k
      · simp [Jmap.set, Jmap.find, hh, h]
      · simp [Jmap.set, Jmap.find, hh, ih]

theorem Jmap.set_of_find_eq (m : Jmap) (k : String) (v : JValue)
    (h : m.find k = some v) : m.set k v = m := by
  induction m with
  | nil => simp [Jmap.find] at h
  | cons hd tl ih =>
      obtain ⟨hk, hv⟩ := hd
      by_cases hh : hk = k
      · simp [Jmap.find, hh] at h
        simp [Jmap.set, hh, h]
      · simp [Jmap.find, hh] at h
        simp [Jmap.set, hh, ih h]

/-! ### Structural detection (`unnamed/part_003`) -/

def v2rayFields : List String :=
  ["inbounds", "outbounds", "routing", "log", "api", "dns", "policy"]

def mihomoFields : List String :=
  ["mixed-port", "port", "socks-port", "redir-port", "tproxy-port",
   "external-controller", "secret", "bind-address",
   "proxy-groups", "proxies", "rules", "rule-providers",
   "mode", "log-level", "ipv6", "allow-lan"]

/-- The `foundFields` counting loop shared by both detectors. -/
def countFields (config : Jmap) (fields : List String) : Nat :=
  (fields.filter (fun f => (config.find f).isSome)).length

/-- Model of `func isV2RayConfig(config map[string]interface{}) bool`. -/
def isV2RayConfig (config : Jmap) : Bool :=
  decide (2 ≤ countFields config v2rayFields)

/-- Model of `func isMihomoConfig(config map[string]interface{}) bool`. -/
def isMihomoConfig (config : Jmap) : Bool :=
  decide (3 ≤ countFields config mihomoFields)

def xrayProtocols : List String := ["vless", "xtls", "reality"]

/-- One iteration of the outbound loop of `isXrayConfig`. -/
def outboundHasXrayMarker (outbound : JValue) : Bool :=
  match outbound with
  | .obj om =>
      (match Jmap.find om "protocol" with
       | some (.str p) => xrayProtocols.any (fun xp => strContains (goToLower p) xp)
       | _ => false)
      ||
      (match Jmap.find om "settings" with
       | some (.obj sm) => (Jmap.find sm "xtlsSettings").isSome
       | _ => false)
  | _ => false

/-- Model of `func isXrayConfig(config map[string]interface{}) bool`. -/
def isXrayConfig (config : Jmap) : Bool :=
  match Jmap.find config "outbounds" with
  | some (.arr outbounds) => outbounds.any outboundHasXrayMarker
  | _ => false

/-- Model of `func detectJSONCoreType(configContent string) (CoreType, error)`, at
the level of the already-unmarshalled document (the `json.Unmarshal`
failure branch lives in the text layer, modelled by `FileContent` below). -/
def detectJSONCoreType (config : Jmap) : Except String CoreType :=
  if isV2RayConfig config then
    if isXrayConfig config then .ok CoreTypeXray else .ok CoreTypeV2Ray
  else if isMihomoConfig config then .ok CoreTypeMihomo
  else .error "unrecognized JSON configuration format"

/-! ### V2Ray config injection (`unnamed/part_002`, `injectRequiredConfig`) -/

/-- The unchecked Go type assertion `config["inbounds"].([]interface{})`:
the code only reaches it on values it just ensured are arrays.  A non-array
would panic in Go; the claims never exercise that path. -/
def asArr (v : Option JValue) : List JValue :=
  match v with
  | some (.arr xs) => xs
  | _ => []

/-- The SOCKS inbound document created by `injectRequiredConfig`. -/
def v2raySocksInbound (socksPort : Int) : JValue :=
  .obj [("tag", .str "tun2socks-in"), ("port", .num socksPort),
        ("listen", .str "127.0.0.1"), ("protocol", .str "socks"),
        ("settings", .obj [("ip", .str "127.0.0.1"), ("userLevel", .num 0)]),
        ("streamSettings", .obj [])]

/-- The API inbound document created by `injectRequiredConfig`. -/
def v2rayApiInbound (apiPort : Int) : JValue :=
  .obj [("tag", .str "api-in"), ("port", .num apiPort),
        ("listen", .str "127.0.0.1"), ("protocol", .str "dokodemo-door"),
        ("settings", .obj [("address", .str "127.0.0.1")])]

/-- The API routing rule created by `injectRequiredConfig`. -/
def v2rayApiRule : JValue :=
  .obj [("type", .str "field"), ("inboundTag", .arr [.str "api-in"]),
        ("outboundTag", .str "api")]

/-- The API outbound document created by `injectRequiredConfig`. -/
def v2rayApiOutbound : JValue :=
  .obj [("tag", .str "api"), ("protocol", .str "blackhole")]

/-- Model of `func (v *V2RayCoreManager) injectRequiredConfig(config map[string]interface{})`
from `unnamed/part_002` lines 258-386, parametrized by the manager's ports. -/
def injectV2Ray (socksPort apiPort : Int) (config : Jmap) : Jmap :=
  let config :=
    if (config.find "inbounds").isSome then config else config.set "inbounds" (.arr [])
  let inbounds := asArr (config.find "inbounds")
  let inbounds := v2raySocksInbound socksPort :: inbounds
  let inbounds := v2rayApiInbound apiPort :: inbounds
  let config := config.set "inbounds" (.arr inbounds)
  let config := config.set "api"
    (.obj [("tag", .str "api"),
           ("services", .arr [.str "HandlerService", .str "LoggerService", .str "StatsService"])])
  let config := config.set "stats" (.obj [])
  let config :=
    match config.find "policy" with
    | some (.obj policyMap) =>
        (match Jmap.find policyMap "system" with
         | some (.obj systemMap) =>
             let systemMap :=
               Jmap.set (Jmap.set systemMap "statsInboundUplink" (.bool true))
                 "statsInboundDownlink" (.bool true)
             config.set "policy" (.obj (Jmap.set policyMap "system" (.obj systemMap)))
         | some _ => config
         | none =>
             config.set "policy"
               (.obj (Jmap.set policyMap "system"
                 (.obj [("statsInboundUplink", .bool true), ("statsInboundDownlink", .bool true)]))))
    | some _ => config
    | none =>
        config.set "policy"
          (.obj [("system",
            .obj [("statsInboundUplink", .bool true), ("statsInboundDownlink", .bool true)])])
  let config :=
    match config.find "routing" with
    | some (.obj routingMap) =>
        (match Jmap.find routingMap "rules" with
         | some (.arr rulesSlice) =>
             config.set "routing"
               (.obj (Jmap.set routingMap "rules" (.arr (v2rayApiRule :: rulesSlice))))
         | some _ => config
         | none =>
             config.set "routing" (.obj (Jmap.set routingMap "rules" (.arr [v2rayApiRule]))))
    | some _ => config
    | none => config.set "routing" (.obj [("rules", .arr [v2rayApiRule])])
  let config :=
    if (config.find "outbounds").isSome then config else config.set "outbounds" (.arr [])
  let outbounds := asArr (config.find "outbounds")
  config.set "outbounds" (.arr (outbounds ++ [v2rayApiOutbound]))

/-! ### Mihomo config injection (`mihomo_core.go`, `injectRequiredConfig`) -/

/-- The manager fields `injectRequiredConfig` reads. -/
structure MihomoInjectParams where
  socksPort : Int
  apiPort : Int
  logLevel : String
  assetPath : String
  configDir : String

/-- Model of `if _, exists := config[k]; !exists { config[k] = v }`. -/
def setIfAbsent (m : Jmap) (k : String) (v : JValue) : Jmap :=
  if (m.find k).isSome then m else m.set k v

/-- The default DNS block injected when the caller supplied none. -/
def mihomoDefaultDns : JValue :=
  .obj [("enable", .bool true), ("listen", .str "127.0.0.1:1053"),
        ("default-nameserver", .arr [.str "8.8.8.8", .str "1.1.1.1"]),
        ("nameserver", .arr [.str "8.8.8.8", .str "1.1.1.1"])]

/-- Model of `injectRequiredConfig` lines 163-207: the unconditional control-plane
fields followed by the conditional scaffolding defaults. -/
def injectMihomoFields (P : MihomoInjectParams) (config : Jmap) : Jmap :=
  let config := config.set "mixed-port" (.num P.socksPort)
  let config := config.set "bind-address" (.str "127.0.0.1")
  let config := config.set "external-controller" (.str ("127.0.0.1:" ++ toString P.apiPort))
  let config := config.set "allow-lan" (.bool false)
  let config := config.set "log-level" (.str P.logLevel)
  let config := setIfAbsent config "mode" (.str "rule")
  let config := setIfAbsent config "proxies"
    (.arr [.obj [("name", .str "DIRECT"), ("type", .str "direct")]])
  let config := setIfAbsent config "proxy-groups"
    (.arr [.obj [("name", .str "PROXY"), ("type", .str "select"),
                 ("proxies", .arr [.str "DIRECT"])]])
  let config := setIfAbsent config "rules" (.arr [.str "MATCH,PROXY"])
  setIfAbsent config "dns" mihomoDefaultDns

/-- The `logDir` computed for the fallback `log-file` entry
(`injectRequiredConfig` lines 211-214). -/
def mihomoLogDir (P : MihomoInjectParams) : String :=
  if P.assetPath = "" ∧ ¬ P.configDir = "" then filepathJoin P.configDir "log"
  else filepathJoin P.assetPath "log"

/-- Model of `injectRequiredConfig` lines 209-232: the fallback `log-file` entry,
added only when the caller supplied none (the `logDir` guard; note
`filepath.Join` never yields an empty path here). -/
def injectMihomoLogFile (P : MihomoInjectParams) (config : Jmap) : Jmap :=
  if (config.find "log-file").isSome then config
  else if mihomoLogDir P = "" then config
  else config.set "log-file" (.str (filepathJoin (mihomoLogDir P) "core.log"))

/-- Model of `func (m *MihomoCoreManager) injectRequiredConfig(config map[string]interface{})`
from `mihomo_core.go` lines 161-241.  The `m.logFilePath` bookkeeping
side effect and the `os.MkdirAll` calls touch no configuration state and
are not modelled. -/
def injectMihomo (P : MihomoInjectParams) (config : Jmap) : Jmap :=
  injectMihomoLogFile P (injectMihomoFields P config)

/-! ### The environment: filesystem and clock

`os.ReadFile` followed by `json.Unmarshal` (and, in the Mihomo adapter,
`yaml.Unmarshal` with a JSON fallback — YAML is a superset of JSON, so a
document that the unified manager already parsed as JSON parses there
too) is modelled by the outcome of reading a path:` missing` is a read
error, `unparsable` is content no parser accepts, `doc` is the parsed
top-level object. -/

inductive FileContent where
  | missing
  | unparsable
  | doc (config : Jmap)

structure Env where
  /-- Outcome of reading and parsing the file at a path. -/
  fs : String → FileContent
  /-- Model of `time.Now().Nanosecond()` at the first fallback-port read. -/
  nanos1 : Nat
  /-- Model of `time.Now().Nanosecond()` at the second fallback-port read. -/
  nanos2 : Nat

/-! ### Engine adapters (`v2ray_core.go`, `mihomo_core.go`)

Only the synchronous, lock-protected effects of the adapter calls are
modelled; the background goroutine (`runConfigSync` / `runCoreAsync`)
loads the engine configuration after `RunConfig` has already returned and
reports failures only to the log.  `hasInstance` stands for
`instance != nil`, which only that background path ever sets. -/

structure V2RayState where
  isRunning : Bool
  hasInstance : Bool
  socksPort : Int
  apiPort : Int
  configPath : String
  assetPath : String
  logLevel : String
  deriving DecidableEq, Repr

/-- Model of `func NewV2RayCoreManager(socksPort, apiPort int) *V2RayCoreManager`. -/
def NewV2RayCoreManager (socksPort apiPort : Int) : V2RayState :=
  { isRunning := false, hasInstance := false, socksPort := socksPort,
    apiPort := apiPort, configPath := "", assetPath := "", logLevel := "info" }

structure MihomoState where
  isRunning : Bool
  socksPort : Int
  apiPort : Int
  configPath : String
  configDir : String
  assetPath : String
  logLevel : String
  deriving DecidableEq, Repr

/-- Model of `func NewMihomoCoreManager(socksPort, apiPort int) *MihomoCoreManager`. -/
def NewMihomoCoreManager (socksPort apiPort : Int) : MihomoState :=
  { isRunning := false, socksPort := socksPort, apiPort := apiPort,
    configPath := "", configDir := "", assetPath := "", logLevel := "info" }

/-- Model of `V2RayCoreManager.RunConfig`: rejects a second concurrent start, then
records the path, spawns the background loader and reports success after a
fixed sleep — file access and config validity are never consulted here. -/
def V2RayState.runConfig (v : V2RayState) (configPath : String) :
    Option String × V2RayState :=
  if v.isRunning then (some "V2Ray core is already running", v)
  else (none, { v with configPath := configPath, isRunning := true })

/-- Model of `V2RayCoreManager.Stop` (`v2ray_core.go` lines 167-195): no-op when
not running, otherwise signals shutdown, closes any instance and always
returns nil. -/
def V2RayState.stop (v : V2RayState) : Option String × V2RayState :=
  if v.isRunning then (none, { v with isRunning := false, hasInstance := false })
  else (none, v)

/-- Model of `MihomoCoreManager.RunConfig` (`mihomo_core.go` lines 70-98): rejects
a second concurrent start, records the path, prepares the injected config
(reading and parsing the file — the only failure the caller can see
besides the running guard; `setupEnvironment` failures are directory
creation errors not modelled here), then reports success after a fixed
sleep while `runCoreAsync` applies the config in the background. -/
def MihomoState.runConfig (env : Env) (m : MihomoState) (configPath : String) :
    Option String × MihomoState :=
  if m.isRunning then (some "Mihomo core is already running", m)
  else
    let m := { m with configPath := configPath }
    match env.fs configPath with
    | .missing => (some "failed to prepare config: failed to read config file", m)
    | .unparsable => (some "failed to prepare config: failed to parse config as YAML or JSON", m)
    | .doc _ => (none, { m with isRunning := true })

/-- Model of `MihomoCoreManager.Stop` (`mihomo_core.go` lines 283-300): no-op when
not running, otherwise cancels the background context, waits briefly and
always returns nil. -/
def MihomoState.stop (m : MihomoState) : Option String × MihomoState :=
  if m.isRunning then (none, { m with isRunning := false })
  else (none, m)

/-! ### The unified manager (`unnamed/part_000`, first revision)

`v2rayGlobal`/`mihomoGlobal` are the package-level singleton adapters of
`package_functions.go` (`globalV2RayManager`, `globalMihomoManager`);
`v2rayRef`/`mihomoRef` model `u.v2rayManager != nil` /
`u.mihomoManager != nil`, which alias the singletons once set.
`hasCancel` models `u.cancel != nil`. -/

structure UnifiedState where
  coreType : CoreType
  running : Bool
  hasCancel : Bool
  socksPort : Int
  apiPort : Int
  configPath : String
  configFormat : String
  assetPath : String
  logLevel : String
  v2rayGlobal : Option V2RayState
  mihomoGlobal : Option MihomoState
  v2rayRef : Bool
  mihomoRef : Bool
  deriving DecidableEq, Repr

/-- Model of `func NewUnifiedCoreManager() *UnifiedCoreManager`
(`package_functions.go`), with the global managers in their initial
(`nil`) state and the global log level at its default. -/
def NewUnifiedCoreManager : UnifiedState :=
  { coreType := CoreTypeXray, running := false, hasCancel := false,
    socksPort := 0, apiPort := 0, configPath := "", configFormat := "json",
    assetPath := "", logLevel := "info",
    v2rayGlobal := none, mihomoGlobal := none,
    v2rayRef := false, mihomoRef := false }

/-- The `case CoreTypeV2Ray, CoreTypeXray` arm of the dispatch switches. -/
def isV2RayFamily (t : CoreType) : Bool :=
  decide (t = CoreTypeV2Ray ∨ t = CoreTypeXray)

/-- Model of `MihomoCoreManager.IsRunning()` of the singleton adapter. -/
def UnifiedState.mihomoFlag (s : UnifiedState) : Bool :=
  match s.mihomoGlobal with
  | some m => m.isRunning
  | none => false

/-- The `isRunning` flag of the singleton V2Ray adapter.
(`V2RayCoreManager.IsRunning()` is this flag conjoined with
`instance != nil`, so a false flag already means not running.) -/
def UnifiedState.v2rayFlag (s : UnifiedState) : Bool :=
  match s.v2rayGlobal with
  | some v => v.isRunning
  | none => false

/-- Model of `func (u *UnifiedCoreManager) stopV2RayCore() error`. -/
def UnifiedState.stopV2RayCore (s : UnifiedState) : Option String × UnifiedState :=
  if s.v2rayRef then
    match s.v2rayGlobal with
    | some v =>
        let r := v.stop
        (r.1, { s with v2rayGlobal := some r.2 })
    | none => (none, s)
  else (none, s)

/-- Model of `func (u *UnifiedCoreManager) stopMihomoCore() error`. -/
def UnifiedState.stopMihomoCore (s : UnifiedState) : Option String × UnifiedState :=
  if s.mihomoRef then
    match s.mihomoGlobal with
    | some m =>
        let r := m.stop
        (r.1, { s with mihomoGlobal := some r.2 })
    | none => (none, s)
  else (none, s)

/-- The shared stop block of `RunConfig` (lines 150-173 and 183-206):
dispatch the adapter stop on the current core type, cancel and clear the
token, clear the running flag.  Returns whether a token was cancelled. -/
def UnifiedState.stopRunningCoreLocked (s : UnifiedState) : Bool × UnifiedState :=
  let s1 :=
    if isV2RayFamily s.coreType then (s.stopV2RayCore).2
    else if s.coreType = CoreTypeMihomo then (s.stopMihomoCore).2
    else s
  (s1.hasCancel, { s1 with hasCancel := false, running := false })

/-- Model of `10000 + time.Now().Nanosecond()%50000`. -/
def fallbackPort (nanos : Nat) : Int :=
  10000 + ((nanos % 50000 : Nat) : Int)

/-- The reverse scan for the last colon of the `external-controller`
value (`RunConfig` lines 216-231): the port substring after the last
colon, if the colon exists and is not the final character, run through
`strconv.Atoi`; on any failure the held API port is kept. -/
def lastColonPort (s : String) : Option Int :=
  let cs := s.data
  if cs.contains ':' then
    let after := (cs.reverse.takeWhile (fun c => ¬ c = ':')).reverse
    if after.isEmpty then none
    else goAtoi (String.mk after)
  else none

/-- The SOCKS port after `RunConfig` lines 210-214 and 235-237: the
`mixed-port` value when it is a JSON number, otherwise the held port;
then the clock fallback when the result is still 0.  (The two ports are
assigned independently in the source, so each is modelled on its own.) -/
def resolveSocksPort (cfg : Jmap) (prior : Int) (nanos : Nat) : Int :=
  match cfg.find "mixed-port" with
  | some (.num n) => if n = 0 then fallbackPort nanos else n
  | _ => if prior = 0 then fallbackPort nanos else prior

/-- The API port after `RunConfig` lines 215-232 and 238-240: the port
substring of a string-valued `external-controller` when `Atoi` accepts
it, otherwise the held port; then the clock fallback on 0. -/
def resolveApiPort (cfg : Jmap) (prior : Int) (nanos : Nat) : Int :=
  match cfg.find "external-controller" with
  | some (.str hp) =>
      (match lastColonPort hp with
       | some q => if q = 0 then fallbackPort nanos else q
       | none => if prior = 0 then fallbackPort nanos else prior)
  | _ => if prior = 0 then fallbackPort nanos else prior

/-- Reading the mandatory `coreType` discriminator out of the injected
config (`RunConfig` lines 136-144). -/
def readInjectedCoreType (cfg : Jmap) : Except String CoreType :=
  match cfg.find "coreType" with
  | some (.str s) =>
      (match ParseCoreType s with
       | .ok t => .ok t
       | .error e => .error ("invalid coreType in injected config: " ++ s ++ " - " ++ e))
  | _ => .error "injected config missing required coreType field - Flutter injection failed"

/-- Model of `func (u *UnifiedCoreManager) startV2RayCore(configPath string) error`:
reuse or create the singleton, push the manager's ports, asset path and
log level into it, alias it, and call its `RunConfig`. -/
def UnifiedState.startV2RayCore (s : UnifiedState) (p : String) :
    Option String × UnifiedState :=
  let g0 :=
    match s.v2rayGlobal with
    | none => NewV2RayCoreManager s.socksPort s.apiPort
    | some v => { v with socksPort := s.socksPort, apiPort := s.apiPort }
  let g1 := { g0 with assetPath := s.assetPath, logLevel := s.logLevel }
  let r := g1.runConfig p
  (r.1, { s with v2rayGlobal := some r.2, v2rayRef := true })

/-- Model of `func (u *UnifiedCoreManager) startMihomoCore(configPath string) error`. -/
def UnifiedState.startMihomoCore (env : Env) (s : UnifiedState) (p : String) :
    Option String × UnifiedState :=
  let g0 :=
    match s.mihomoGlobal with
    | none => NewMihomoCoreManager s.socksPort s.apiPort
    | some m => { m with socksPort := s.socksPort, apiPort := s.apiPort }
  let g1 := { g0 with assetPath := s.assetPath, logLevel := s.logLevel }
  let r := MihomoState.runConfig env g1 p
  (r.1, { s with mihomoGlobal := some r.2, mihomoRef := true })

/-- Trace marks recorded at the adapter-call boundaries of `RunConfig`:
stopping the previous core of a different type, stopping the current core
of the same type for a restart, and the start attempt.  The stop marks
record whether a cancellation token was cancelled and cleared there. -/
inductive Mark where
  | stopOld (cancelWasSet : Bool)
  | stopSame (cancelWasSet : Bool)
  | started (ok : Bool)
  deriving DecidableEq, Repr

/-- Result of a manager transition: Go error, final state, and the
trace of adapter-boundary snapshots in execution order. -/
structure RunResult where
  err : Option String
  state : UnifiedState
  trace : List (Mark × UnifiedState)
  deriving DecidableEq, Repr

/-- Packaging of the start-switch tail of `RunConfig` (lines 243-268):
on adapter failure the token is cancelled (`u.cancel()` — though the
field is left non-nil) and the wrapped error returned; on success the
manager becomes running. -/
def mkStartResult (dn : String) (r : Option String × UnifiedState)
    (tr : List (Mark × UnifiedState)) : RunResult :=
  match r with
  | (some e, s1) =>
      ⟨some ("failed to start " ++ dn ++ " core: " ++ e), s1, tr ++ [(Mark.started false, s1)]⟩
  | (none, s1) =>
      let s2 := { s1 with running := true }
      ⟨none, s2, tr ++ [(Mark.started true, s2)]⟩

/-- Model of `func (u *UnifiedCoreManager) RunConfig(configPath string) error`
(`unnamed/part_000` lines 113-269, the revision the design notes cite):
record the path, read and JSON-parse the file, read the mandatory
`coreType` discriminator, stop a running core of a different type
(cancelling its token), adopt the detected type, stop a still-running
core of the same type, extract ports from the config with clock-based
fallbacks for zero, create a fresh cancellation token, and dispatch the
adapter start. -/
def UnifiedState.RunConfig (env : Env) (s : UnifiedState) (p : String) : RunResult :=
  let s := { s with configPath := p }
  match env.fs p with
  | .missing => ⟨some "failed to read config file", s, []⟩
  | .unparsable => ⟨some "failed to parse injected config as JSON", s, []⟩
  | .doc cfg =>
    match readInjectedCoreType cfg with
    | .error e => ⟨some e, s, []⟩
    | .ok detected =>
      let step1 :=
        if s.running = true ∧ ¬ s.coreType = detected then
          let r := s.stopRunningCoreLocked
          (r.2, [(Mark.stopOld r.1, r.2)])
        else (s, ([] : List (Mark × UnifiedState)))
      let s := { step1.1 with coreType := detected, configFormat := "json" }
      let step2 :=
        if s.running = true then
          let r := s.stopRunningCoreLocked
          (r.2, step1.2 ++ [(Mark.stopSame r.1, r.2)])
        else (s, step1.2)
      let s := { step2.1 with
                   socksPort := resolveSocksPort cfg step2.1.socksPort env.nanos1,
                   apiPort := resolveApiPort cfg step2.1.apiPort env.nanos2,
                   hasCancel := true }
      if isV2RayFamily s.coreType then
        mkStartResult (CoreType.DisplayName s.coreType) (s.startV2RayCore p) step2.2
      else if s.coreType = CoreTypeMihomo then
        mkStartResult (CoreType.DisplayName s.coreType) (s.startMihomoCore env p) step2.2
      else ⟨some "unsupported core type", s, step2.2⟩

/-- Model of `func (u *UnifiedCoreManager) Stop() error` (lines 271-304): no-op
returning nil when not running; otherwise stop the current adapter,
cancel and clear the token, clear the running flag and the config path.
Both adapter stops always return nil, so the adapter-error branch that
would forward an error never fires. -/
def UnifiedState.Stop (s : UnifiedState) : Option String × UnifiedState :=
  if s.running = true then
    let e :=
      if isV2RayFamily s.coreType then (s.stopV2RayCore).1
      else if s.coreType = CoreTypeMihomo then (s.stopMihomoCore).1
      else none
    let s1 :=
      if isV2RayFamily s.coreType then (s.stopV2RayCore).2
      else if s.coreType = CoreTypeMihomo then (s.stopMihomoCore).2
      else s
    (e, { s1 with hasCancel := false, running := false, configPath := "" })
  else (none, s)

/-- Model of `func (u *UnifiedCoreManager) Restart() error` (lines 349-365). -/
def UnifiedState.Restart (env : Env) (s : UnifiedState) : RunResult :=
  let configPath := s.configPath
  if configPath = "" then ⟨some "no configuration path set", s, []⟩
  else
    let r := s.Stop
    match r.1 with
    | some e => ⟨some ("failed to stop core for restart: " ++ e), r.2, []⟩
    | none => r.2.RunConfig env configPath

/-- Model of `func (u *UnifiedCoreManager) setCoreType(coreType CoreType) error`. -/
def UnifiedState.setCoreType (s : UnifiedState) (ct : CoreType) :
    Option String × UnifiedState :=
  if s.running = true then (some "cannot change core type while running", s)
  else if ¬ CoreType.IsValid ct then (some "invalid core type", s)
  else (none, { s with coreType := ct, configFormat := "json" })

/-- Model of `func (u *UnifiedCoreManager) SetPorts(socksPort, apiPort int) error`. -/
def UnifiedState.SetPorts (s : UnifiedState) (socksPort apiPort : Int) :
    Option String × UnifiedState :=
  if s.running = true then (some "cannot change ports while running", s)
  else if socksPort ≤ 0 ∨ 65535 < socksPort then (some "invalid SOCKS port", s)
  else if apiPort ≤ 0 ∨ 65535 < apiPort then (some "invalid API port", s)
  else (none, { s with socksPort := socksPort, apiPort := apiPort })

/-- Model of `func (u *UnifiedCoreManager) SwitchCoreType(newCoreType CoreType) error`
(lines 367-390): snapshot the running flag and config path, stop if
running, set the new type, and if it was running re-run the saved path. -/
def UnifiedState.SwitchCoreType (env : Env) (s : UnifiedState) (newCT : CoreType) : RunResult :=
  let currentlyRunning := s.running
  let configPath := s.configPath
  let r1 := if currentlyRunning = true then s.Stop else (none, s)
  match r1.1 with
  | some e => ⟨some ("failed to stop current core: " ++ e), r1.2, []⟩
  | none =>
    let r2 := r1.2.setCoreType newCT
    match r2.1 with
    | some e => ⟨some ("failed to set new core type: " ++ e), r2.2, []⟩
    | none =>
      if currentlyRunning = true ∧ ¬ configPath = "" then
        let r3 := r2.2.RunConfig env configPath
        match r3.err with
        | some e => ⟨some ("failed to start new core: " ++ e), r3.state, r3.trace⟩
        | none => r3
      else ⟨none, r2.2, []⟩

/-! ## Shared helper lemmas -/

theorem setIfAbsent_of_isSome (m : Jmap) (k : String) (v : JValue)
    (h : (m.find k).isSome) : setIfAbsent m k v = m := by
  simp [setIfAbsent, h]

theorem find_setIfAbsent_isSome (m : Jmap) (k : String) (v : JValue) :
    ((setIfAbsent m k v).find k).isSome := by
  unfold setIfAbsent
  split
  · assumption
  · simp [Jmap.find_set_self]

theorem find_setIfAbsent_ne (m : Jmap) (k ka : String) (v : JValue) (h : ¬ k = ka) :
    (setIfAbsent m k v).find ka = m.find ka := by
  unfold setIfAbsent
  split
  · rfl
  · exact Jmap.find_set_ne m k ka v h

theorem filepathJoin_ne_empty (a b : String) (hb : ¬ b = "") :
    ¬ filepathJoin a b = "" := by
  unfold filepathJoin
  split
  · exact hb
  · intro h
    have hd := congrArg String.data h
    simp [String.data_append] at hd

theorem ParseCoreType_ok_valid (v : String) (t : CoreType)
    (h : ParseCoreType v = .ok t) :
    t = CoreTypeV2Ray ∨ t = CoreTypeXray ∨ t = CoreTypeMihomo := by
  unfold ParseCoreType at h
  split_ifs at h <;> simp_all

theorem readInjectedCoreType_ok_valid (cfg : Jmap) (t : CoreType)
    (h : readInjectedCoreType cfg = .ok t) :
    t = CoreTypeV2Ray ∨ t = CoreTypeXray ∨ t = CoreTypeMihomo := by
  unfold readInjectedCoreType at h
  split at h
  · split at h
    · cases h
      exact ParseCoreType_ok_valid _ _ (by assumption)
    · cases h
  · cases h

/-! ## Claim C3: structural detection thresholds -/

/-- A JSON document carrying two V2Ray fields and four Mihomo fields:
the count comparison of the claim would classify it as Mihomo. -/
def cxC3 : Jmap :=
  [("inbounds", .arr []), ("outbounds", .arr []),
   ("mixed-port", .num 7890), ("port", .num 7891),
   ("socks-port", .num 7892), ("redir-port", .num 7893)]

/-- Claim C3, counterexample: structural detection does not pick the
engine with the higher field count — a document with 2 V2Ray-specific
and 4 Mihomo-specific top-level fields is classified V2Ray, because the
V2Ray check runs first. -/
theorem detectJSON_higher_count_cx :
    countFields cxC3 v2rayFields = 2 ∧
    countFields cxC3 mihomoFields = 4 ∧
    detectJSONCoreType cxC3 = .ok CoreTypeV2Ray ∧
    ¬ CoreTypeV2Ray = CoreTypeMihomo := by
  refine ⟨rfl, rfl, rfl, by decide⟩

/-- Claim C3 (amended): for a JSON document without a discriminator,
detection is priority-ordered, not count-compared: at least 2 present
V2Ray-specific fields classify it as V2Ray (or Xray on protocol markers)
regardless of the Mihomo count; otherwise at least 3 Mihomo-specific
fields classify it as Mihomo; otherwise detection fails. -/
theorem detectJSON_v2ray_priority (cfg : Jmap) :
    (2 ≤ countFields cfg v2rayFields →
        detectJSONCoreType cfg =
          .ok (if isXrayConfig cfg then CoreTypeXray else CoreTypeV2Ray)) ∧
    (countFields cfg v2rayFields < 2 → 3 ≤ countFields cfg mihomoFields →
        detectJSONCoreType cfg = .ok CoreTypeMihomo) ∧
    (countFields cfg v2rayFields < 2 → countFields cfg mihomoFields < 3 →
        detectJSONCoreType cfg = .error "unrecognized JSON configuration format") := by
  refine ⟨fun h => ?_, fun h1 h2 => ?_, fun h1 h2 => ?_⟩
  · rcases hx : isXrayConfig cfg <;>
      simp [detectJSONCoreType, isV2RayConfig, h, hx]
  · have h1' : ¬ 2 ≤ countFields cfg v2rayFields := by omega
    simp [detectJSONCoreType, isV2RayConfig, isMihomoConfig, h1', h2]
  · have h1' : ¬ 2 ≤ countFields cfg v2rayFields := by omega
    have h2' : ¬ 3 ≤ countFields cfg mihomoFields := by omega
    simp [detectJSONCoreType, isV2RayConfig, isMihomoConfig, h1', h2']

/-- Claim C3, witness instance: a Mihomo-only document (no V2Ray fields,
three Mihomo fields) is classified Mihomo by the amended rule. -/
theorem detectJSON_v2ray_priority_witness :
    countFields [(("proxies" : String), JValue.arr []),
                 (("proxy-groups" : String), JValue.arr []),
                 (("rules" : String), JValue.arr [])] v2rayFields < 2 ∧
    3 ≤ countFields [(("proxies" : String), JValue.arr []),
                 (("proxy-groups" : String), JValue.arr []),
                 (("rules" : String), JValue.arr [])] mihomoFields ∧
    detectJSONCoreType [(("proxies" : String), JValue.arr []),
                 (("proxy-groups" : String), JValue.arr []),
                 (("rules" : String), JValue.arr [])] = .ok CoreTypeMihomo :=
  ⟨by decide, by decide,
   (detectJSON_v2ray_priority _).2.1 (by decide) (by decide)⟩

/-! ## Claim C4: explicit discriminators are trusted -/

/-- The discriminator rule in the words of the design (§4.1): lowercase
and whitespace-trim the explicit engine-type value, then look it up in
the alias table, with legacy `clash` and `clash-meta` naming Mihomo; any
other value is unknown. -/
def specDiscriminatorAlias (v : String) : Option CoreType :=
  if goToLower (goTrimSpace v) = "v2ray" then some CoreTypeV2Ray
  else if goToLower (goTrimSpace v) = "xray" then some CoreTypeXray
  else if goToLower (goTrimSpace v) = "mihomo" then some CoreTypeMihomo
  else if goToLower (goTrimSpace v) = "clash" then some CoreTypeMihomo
  else if goToLower (goTrimSpace v) = "clash-meta" then some CoreTypeMihomo
  else none

/-- Claim C4: a configuration carrying an explicit `coreType`
discriminator is detected as exactly the engine the spec's alias table
names (case-insensitive, whitespace-trimmed, with the legacy `clash`
aliases mapping to Mihomo), and a value outside the table is an error. -/
theorem readInjectedCoreType_trusts_discriminator (cfg : Jmap) (v : String)
    (hfind : cfg.find "coreType" = some (JValue.str v)) :
    (∀ T, specDiscriminatorAlias v = some T → readInjectedCoreType cfg = .ok T) ∧
    (specDiscriminatorAlias v = none → ∃ e, readInjectedCoreType cfg = .error e) := by
  have hr : readInjectedCoreType cfg =
      (match ParseCoreType v with
       | .ok t => .ok t
       | .error e => .error ("invalid coreType in injected config: " ++ v ++ " - " ++ e)) := by
    simp [readInjectedCoreType, hfind]
  constructor
  · intro T hT
    unfold specDiscriminatorAlias at hT
    rw [hr]
    unfold ParseCoreType
    split_ifs at hT ⊢ <;> simp_all
  · intro hT
    unfold specDiscriminatorAlias at hT
    rw [hr]
    unfold ParseCoreType
    split_ifs at hT ⊢ <;> simp_all

/-- Claim C4, witness: a document whose discriminator is a padded
mixed-case legacy alias is detected as Mihomo. -/
theorem readInjectedCoreType_trusts_discriminator_witness :
    Jmap.find [(("coreType" : String), JValue.str " Clash-Meta ")] "coreType" =
      some (JValue.str " Clash-Meta ") ∧
    specDiscriminatorAlias " Clash-Meta " = some CoreTypeMihomo ∧
    readInjectedCoreType [(("coreType" : String), JValue.str " Clash-Meta ")] =
      .ok CoreTypeMihomo :=
  ⟨rfl, rfl,
   (readInjectedCoreType_trusts_discriminator
     [(("coreType" : String), JValue.str " Clash-Meta ")] " Clash-Meta " rfl).1
     CoreTypeMihomo rfl⟩

/-! ## Claim C5: injection idempotence -/

theorem injectMihomoFields_find (P : MihomoInjectParams) (c : Jmap) :
    (injectMihomoFields P c).find "mixed-port" = some (.num P.socksPort) ∧
    (injectMihomoFields P c).find "bind-address" = some (.str "127.0.0.1") ∧
    (injectMihomoFields P c).find "external-controller" =
      some (.str ("127.0.0.1:" ++ toString P.apiPort)) ∧
    (injectMihomoFields P c).find "allow-lan" = some (.bool false) ∧
    (injectMihomoFields P c).find "log-level" = some (.str P.logLevel) ∧
    ((injectMihomoFields P c).find "mode").isSome ∧
    ((injectMihomoFields P c).find "proxies").isSome ∧
    ((injectMihomoFields P c).find "proxy-groups").isSome ∧
    ((injectMihomoFields P c).find "rules").isSome ∧
    ((injectMihomoFields P c).find "dns").isSome := by
  refine ⟨?_, ?_, ?_, ?_, ?_, ?_, ?_, ?_, ?_, ?_⟩ <;>
    simp [injectMihomoFields, Jmap.find_set_self, Jmap.find_set_ne,
          find_setIfAbsent_ne, find_setIfAbsent_isSome]

theorem mihomoLogDir_ne_empty (P : MihomoInjectParams) : ¬ mihomoLogDir P = "" := by
  unfold mihomoLogDir
  split
  · exact filepathJoin_ne_empty P.configDir "log" (by decide)
  · exact filepathJoin_ne_empty P.assetPath "log" (by decide)

theorem injectMihomoLogFile_find_ne (P : MihomoInjectParams) (c : Jmap)
    (ka : String) (h : ¬ ka = "log-file") :
    (injectMihomoLogFile P c).find ka = c.find ka := by
  unfold injectMihomoLogFile
  split
  · rfl
  · split
    · rfl
    · exact Jmap.find_set_ne c "log-file" ka _ (fun hh => h hh.symm)

theorem injectMihomoLogFile_isSome (P : MihomoInjectParams) (c : Jmap) :
    ((injectMihomoLogFile P c).find "log-file").isSome := by
  unfold injectMihomoLogFile
  split
  · assumption
  · simp [mihomoLogDir_ne_empty P, Jmap.find_set_self]

theorem injectMihomoLogFile_of_isSome (P : MihomoInjectParams) (c : Jmap)
    (h : (c.find "log-file").isSome) : injectMihomoLogFile P c = c := by
  unfold injectMihomoLogFile
  simp [h]

/-- Claim C5, counterexample: the V2Ray injector is not idempotent, not
even modulo key ordering — a second run on its own output prepends the
SOCKS and API inbounds again, growing `inbounds` from 2 to 4 entries. -/
theorem injectV2Ray_not_idempotent_cx :
    (asArr ((injectV2Ray 15491 15490 []).find "inbounds")).length = 2 ∧
    (asArr ((injectV2Ray 15491 15490 (injectV2Ray 15491 15490 [])).find "inbounds")).length = 4 ∧
    ¬ (injectV2Ray 15491 15490 (injectV2Ray 15491 15490 [])).find "inbounds" =
        (injectV2Ray 15491 15490 []).find "inbounds" := by
  refine ⟨rfl, rfl, fun h => ?_⟩
  have hlen := congrArg (fun o => (asArr o).length) h
  exact absurd hlen (by decide)

/-- Claim C5 (amended): the Mihomo injector is idempotent — re-running
it on its own output is the identity, literally, because the control
fields are overwritten in place with the same values and every
conditional default already exists.  The V2Ray injector is not (see the
counterexample): it appends its inbounds, routing rule and API outbound
again without recognizing its own tags. -/
theorem injectMihomo_idempotent (P : MihomoInjectParams) (c : Jmap) :
    injectMihomo P (injectMihomo P c) = injectMihomo P c := by
  obtain ⟨f1, f2, f3, f4, f5, f6, f7, f8, f9, f10⟩ := injectMihomoFields_find P c
  set D := injectMihomo P c with hD
  have hfind : ∀ ka, ¬ ka = "log-file" →
      D.find ka = (injectMihomoFields P c).find ka := by
    intro ka hka
    rw [hD]
    exact injectMihomoLogFile_find_ne P _ ka hka
  have g1 : D.find "mixed-port" = some (.num P.socksPort) := by
    rw [hfind _ (by decide)]; exact f1
  have g2 : D.find "bind-address" = some (.str "127.0.0.1") := by
    rw [hfind _ (by decide)]; exact f2
  have g3 : D.find "external-controller" = some (.str ("127.0.0.1:" ++ toString P.apiPort)) := by
    rw [hfind _ (by decide)]; exact f3
  have g4 : D.find "allow-lan" = some (.bool false) := by
    rw [hfind _ (by decide)]; exact f4
  have g5 : D.find "log-level" = some (.str P.logLevel) := by
    rw [hfind _ (by decide)]; exact f5
  have g6 : (D.find "mode").isSome := by rw [hfind _ (by decide)]; exact f6
  have g7 : (D.find "proxies").isSome := by rw [hfind _ (by decide)]; exact f7
  have g8 : (D.find "proxy-groups").isSome := by rw [hfind _ (by decide)]; exact f8
  have g9 : (D.find "rules").isSome := by rw [hfind _ (by decide)]; exact f9
  have g10 : (D.find "dns").isSome := by rw [hfind _ (by decide)]; exact f10
  have g11 : (D.find "log-file").isSome := by
    rw [hD]; exact injectMihomoLogFile_isSome P _
  have hfields : injectMihomoFields P D = D := by
    simp only [injectMihomoFields]
    rw [Jmap.set_of_find_eq _ _ _ g1, Jmap.set_of_find_eq _ _ _ g2,
        Jmap.set_of_find_eq _ _ _ g3, Jmap.set_of_find_eq _ _ _ g4,
        Jmap.set_of_find_eq _ _ _ g5,
        setIfAbsent_of_isSome _ _ _ g6, setIfAbsent_of_isSome _ _ _ g7,
        setIfAbsent_of_isSome _ _ _ g8, setIfAbsent_of_isSome _ _ _ g9,
        setIfAbsent_of_isSome _ _ _ g10]
  show injectMihomoLogFile P (injectMihomoFields P D) = D
  rw [hfields]
  exact injectMihomoLogFile_of_isSome P D g11

/-! ## Claim C8: Stop is an idempotent no-op on a stopped manager -/

theorem stopV2RayCore_err (s : UnifiedState) : (s.stopV2RayCore).1 = none := by
  unfold UnifiedState.stopV2RayCore
  split
  · cases s.v2rayGlobal <;> simp [V2RayState.stop]
    split <;> rfl
  · rfl

theorem stopMihomoCore_err (s : UnifiedState) : (s.stopMihomoCore).1 = none := by
  unfold UnifiedState.stopMihomoCore
  split
  · cases s.mihomoGlobal <;> simp [MihomoState.stop]
    split <;> rfl
  · rfl

/-- Claim C8: `Stop` always returns success (both adapter stops return
nil); calling it on a non-running manager changes no state; after any
`Stop` the manager reports not running; and a second consecutive `Stop`
is exactly such a no-op. -/
theorem Stop_noop_idempotent (s : UnifiedState) :
    (s.running = false → s.Stop = (none, s)) ∧
    (s.Stop).1 = none ∧
    ((s.Stop).2).running = false ∧
    ((s.Stop).2).Stop = (none, (s.Stop).2) := by
  have hnoop : ∀ t : UnifiedState, t.running = false → t.Stop = (none, t) := by
    intro t ht
    unfold UnifiedState.Stop
    simp [ht]
  have herr : (s.Stop).1 = none := by
    unfold UnifiedState.Stop
    split
    · simp only
      split_ifs <;> simp [stopV2RayCore_err, stopMihomoCore_err]
    · rfl
  have hrun : ((s.Stop).2).running = false := by
    unfold UnifiedState.Stop
    split
    · rfl
    · simp_all
  exact ⟨hnoop s, herr, hrun, hnoop _ hrun⟩

/-- Claim C8, witness: on the freshly constructed manager, `Stop` is a
no-op returning nil, and so is a second call. -/
theorem Stop_noop_idempotent_witness :
    NewUnifiedCoreManager.running = false ∧
    NewUnifiedCoreManager.Stop = (none, NewUnifiedCoreManager) :=
  ⟨rfl, (Stop_noop_idempotent NewUnifiedCoreManager).1 rfl⟩

/-! ## Claim C10: Restart and the held configuration path -/

/-- Claim C10 (amended): `Restart` fails with `no configuration path
set`, touching nothing, exactly when the held path is empty; stopping a
running manager clears the path, so `Restart` directly after such a
`Stop` fails that way.  (A `Stop` of an already-stopped manager is a
no-op that does not clear a path left behind by an earlier failed
`RunConfig`, so `Restart` can still act after it — see the
counterexample.) -/
theorem Restart_requires_configPath (env : Env) (s : UnifiedState) :
    (s.configPath = "" → s.Restart env = ⟨some "no configuration path set", s, []⟩) ∧
    (s.running = true →
        ((s.Stop).2.configPath = "" ∧
         (s.Stop).2.Restart env =
           ⟨some "no configuration path set", (s.Stop).2, []⟩)) := by
  have hempty : ∀ t : UnifiedState, t.configPath = "" →
      t.Restart env = ⟨some "no configuration path set", t, []⟩ := by
    intro t ht
    unfold UnifiedState.Restart
    simp [ht]
  have hclear : s.running = true → (s.Stop).2.configPath = "" := by
    intro hr
    unfold UnifiedState.Stop
    simp [hr]
  exact ⟨hempty s, fun hr => ⟨hclear hr, hempty _ (hclear hr)⟩⟩

/-- The stopped manager left with a stale path by an earlier
(failed or succeeded-then-externally-stopped) `RunConfig` attempt. -/
def cxC10State : UnifiedState :=
  { NewUnifiedCoreManager with configPath := "cfg" }

/-- A filesystem on which the stale path holds a valid Mihomo config. -/
def cxC10Env : Env :=
  ⟨fun p => if p = "cfg" then .doc [("coreType", .str "mihomo")] else .missing, 3, 4⟩

/-- Claim C10, counterexample: after a successful (no-op) `Stop` of a
stopped manager holding a stale path, `Restart` does not return the
`no configuration path set` error — it starts an engine and succeeds,
because only the running branch of `Stop` clears the path. -/
theorem Restart_after_noop_stop_cx :
    cxC10State.Stop = (none, cxC10State) ∧
    ¬ cxC10State.configPath = "" ∧
    (cxC10State.Restart cxC10Env).err = none ∧
    (cxC10State.Restart cxC10Env).state.running = true := by
  refine ⟨rfl, by decide, rfl, rfl⟩

/-! ## Lemmas about the unified manager transitions -/

theorem mkStartResult_of_ok (dn : String) (r : Option String × UnifiedState)
    (tr : List (Mark × UnifiedState)) (h : r.1 = none) :
    mkStartResult dn r tr =
      ⟨none, { r.2 with running := true },
       tr ++ [(Mark.started true, { r.2 with running := true })]⟩ := by
  obtain ⟨e, st⟩ := r
  simp only at h
  subst h
  rfl

theorem mkStartResult_of_err (dn : String) (r : Option String × UnifiedState)
    (tr : List (Mark × UnifiedState)) (e : String) (h : r.1 = some e) :
    mkStartResult dn r tr =
      ⟨some ("failed to start " ++ dn ++ " core: " ++ e), r.2,
       tr ++ [(Mark.started false, r.2)]⟩ := by
  obtain ⟨e0, st⟩ := r
  simp only at h
  subst h
  rfl

theorem startV2RayCore_ok (s : UnifiedState) (p : String)
    (hflag : s.v2rayFlag = false) :
    (s.startV2RayCore p).1 = none ∧
    (s.startV2RayCore p).2.v2rayFlag = true ∧
    (s.startV2RayCore p).2.mihomoFlag = s.mihomoFlag ∧
    (s.startV2RayCore p).2.running = s.running ∧
    (s.startV2RayCore p).2.hasCancel = s.hasCancel ∧
    (s.startV2RayCore p).2.coreType = s.coreType ∧
    (s.startV2RayCore p).2.socksPort = s.socksPort ∧
    (s.startV2RayCore p).2.apiPort = s.apiPort ∧
    (s.startV2RayCore p).2.configPath = s.configPath ∧
    (s.startV2RayCore p).2.configFormat = s.configFormat := by
  unfold UnifiedState.startV2RayCore
  cases hg : s.v2rayGlobal with
  | none =>
      simp [NewV2RayCoreManager, V2RayState.runConfig, UnifiedState.v2rayFlag,
            UnifiedState.mihomoFlag, hg]
  | some v =>
      have hv : v.isRunning = false := by
        simpa [UnifiedState.v2rayFlag, hg] using hflag
      simp [V2RayState.runConfig, UnifiedState.v2rayFlag, UnifiedState.mihomoFlag, hg, hv]

theorem startMihomoCore_ok (env : Env) (s : UnifiedState) (p : String) (cfg : Jmap)
    (hf : env.fs p = FileContent.doc cfg)
    (hflag : s.mihomoFlag = false) :
    (s.startMihomoCore env p).1 = none ∧
    (s.startMihomoCore env p).2.mihomoFlag = true ∧
    (s.startMihomoCore env p).2.v2rayFlag = s.v2rayFlag ∧
    (s.startMihomoCore env p).2.running = s.running ∧
    (s.startMihomoCore env p).2.hasCancel = s.hasCancel ∧
    (s.startMihomoCore env p).2.coreType = s.coreType ∧
    (s.startMihomoCore env p).2.socksPort = s.socksPort ∧
    (s.startMihomoCore env p).2.apiPort = s.apiPort ∧
    (s.startMihomoCore env p).2.configPath = s.configPath ∧
    (s.startMihomoCore env p).2.configFormat = s.configFormat := by
  unfold UnifiedState.startMihomoCore
  cases hg : s.mihomoGlobal with
  | none =>
      simp [NewMihomoCoreManager, MihomoState.runConfig, UnifiedState.mihomoFlag,
            UnifiedState.v2rayFlag, hg, hf]
  | some m =>
      have hm : m.isRunning = false := by
        simpa [UnifiedState.mihomoFlag, hg] using hflag
      simp [MihomoState.runConfig, UnifiedState.mihomoFlag, UnifiedState.v2rayFlag, hg, hm, hf]

theorem stopRunningCoreLocked_spec (s : UnifiedState)
    (hold : s.coreType = CoreTypeV2Ray ∨ s.coreType = CoreTypeXray ∨ s.coreType = CoreTypeMihomo)
    (hrefv2 : isV2RayFamily s.coreType = true → s.v2rayRef = true)
    (hrefmi : s.coreType = CoreTypeMihomo → s.mihomoRef = true)
    (hotherv2 : s.coreType = CoreTypeMihomo → s.v2rayFlag = false)
    (hothermi : isV2RayFamily s.coreType = true → s.mihomoFlag = false) :
    (s.stopRunningCoreLocked).1 = s.hasCancel ∧
    (s.stopRunningCoreLocked).2.running = false ∧
    (s.stopRunningCoreLocked).2.hasCancel = false ∧
    (s.stopRunningCoreLocked).2.v2rayFlag = false ∧
    (s.stopRunningCoreLocked).2.mihomoFlag = false ∧
    (s.stopRunningCoreLocked).2.coreType = s.coreType ∧
    (s.stopRunningCoreLocked).2.socksPort = s.socksPort ∧
    (s.stopRunningCoreLocked).2.apiPort = s.apiPort ∧
    (s.stopRunningCoreLocked).2.configPath = s.configPath ∧
    (s.stopRunningCoreLocked).2.configFormat = s.configFormat ∧
    (s.stopRunningCoreLocked).2.assetPath = s.assetPath ∧
    (s.stopRunningCoreLocked).2.logLevel = s.logLevel := by
  unfold UnifiedState.stopRunningCoreLocked UnifiedState.stopV2RayCore UnifiedState.stopMihomoCore
  rcases hold with h | h | h
  · have hfam : isV2RayFamily s.coreType = true := by rw [h]; rfl
    have href := hrefv2 hfam
    have hmf := hothermi hfam
    cases hg : s.v2rayGlobal with
    | none =>
        simp_all [UnifiedState.v2rayFlag, UnifiedState.mihomoFlag]
    | some v =>
        simp_all [UnifiedState.v2rayFlag, UnifiedState.mihomoFlag, V2RayState.stop]
        split <;> simp_all
  · have hfam : isV2RayFamily s.coreType = true := by rw [h]; rfl
    have href := hrefv2 hfam
    have hmf := hothermi hfam
    cases hg : s.v2rayGlobal with
    | none =>
        simp_all [UnifiedState.v2rayFlag, UnifiedState.mihomoFlag]
    | some v =>
        simp_all [UnifiedState.v2rayFlag, UnifiedState.mihomoFlag, V2RayState.stop]
        split <;> simp_all
  · have hfam : isV2RayFamily s.coreType = false := by rw [h]; rfl
    have href := hrefmi h
    have hvf := hotherv2 h
    cases hg : s.mihomoGlobal with
    | none =>
        simp_all [UnifiedState.v2rayFlag, UnifiedState.mihomoFlag]
    | some m =>
        simp_all [UnifiedState.v2rayFlag, UnifiedState.mihomoFlag, MihomoState.stop]
        split <;> simp_all

/-- Master lemma: a `RunConfig` call on a manager that is not running,
with a readable JSON config carrying a valid discriminator, and the
target engine's singleton adapter idle, succeeds — whatever else the
configuration contains. -/
theorem runConfig_stopped_spec (env : Env) (s : UnifiedState) (p : String)
    (cfg : Jmap) (T : CoreType)
    (hf : env.fs p = FileContent.doc cfg)
    (hd : readInjectedCoreType cfg = Except.ok T)
    (hrun : s.running = false)
    (hv2 : isV2RayFamily T = true → s.v2rayFlag = false)
    (hmi : T = CoreTypeMihomo → s.mihomoFlag = false) :
    (s.RunConfig env p).err = none ∧
    (s.RunConfig env p).state.running = true ∧
    (s.RunConfig env p).state.coreType = T ∧
    (s.RunConfig env p).state.configPath = p ∧
    (s.RunConfig env p).state.socksPort = resolveSocksPort cfg s.socksPort env.nanos1 ∧
    (s.RunConfig env p).state.apiPort = resolveApiPort cfg s.apiPort env.nanos2 ∧
    (s.RunConfig env p).trace = [(Mark.started true, (s.RunConfig env p).state)] ∧
    (isV2RayFamily T = true →
        (s.RunConfig env p).state.v2rayFlag = true ∧
        (s.RunConfig env p).state.mihomoFlag = s.mihomoFlag) ∧
    (T = CoreTypeMihomo →
        (s.RunConfig env p).state.mihomoFlag = true ∧
        (s.RunConfig env p).state.v2rayFlag = s.v2rayFlag) := by
  rcases readInjectedCoreType_ok_valid cfg T hd with hT | hT | hT <;> subst hT
  · have hvf := hv2 rfl
    cases hg : s.v2rayGlobal with
    | none =>
        simp [UnifiedState.RunConfig, hf, hd, hrun, UnifiedState.startV2RayCore,
              NewV2RayCoreManager, V2RayState.runConfig, mkStartResult,
              UnifiedState.v2rayFlag, UnifiedState.mihomoFlag, isV2RayFamily,
              CoreTypeV2Ray, CoreTypeXray, CoreTypeMihomo, hg]
    | some v =>
        have hv : v.isRunning = false := by
          simpa [UnifiedState.v2rayFlag, hg] using hvf
        simp [UnifiedState.RunConfig, hf, hd, hrun, UnifiedState.startV2RayCore,
              V2RayState.runConfig, mkStartResult,
              UnifiedState.v2rayFlag, UnifiedState.mihomoFlag, isV2RayFamily,
              CoreTypeV2Ray, CoreTypeXray, CoreTypeMihomo, hg, hv]
  · have hvf := hv2 rfl
    cases hg : s.v2rayGlobal with
    | none =>
        simp [UnifiedState.RunConfig, hf, hd, hrun, UnifiedState.startV2RayCore,
              NewV2RayCoreManager, V2RayState.runConfig, mkStartResult,
              UnifiedState.v2rayFlag, UnifiedState.mihomoFlag, isV2RayFamily,
              CoreTypeV2Ray, CoreTypeXray, CoreTypeMihomo, hg]
    | some v =>
        have hv : v.isRunning = false := by
          simpa [UnifiedState.v2rayFlag, hg] using hvf
        simp [UnifiedState.RunConfig, hf, hd, hrun, UnifiedState.startV2RayCore,
              V2RayState.runConfig, mkStartResult,
              UnifiedState.v2rayFlag, UnifiedState.mihomoFlag, isV2RayFamily,
              CoreTypeV2Ray, CoreTypeXray, CoreTypeMihomo, hg, hv]
  · have hmf := hmi rfl
    cases hg : s.mihomoGlobal with
    | none =>
        simp [UnifiedState.RunConfig, hf, hd, hrun, UnifiedState.startMihomoCore,
              NewMihomoCoreManager, MihomoState.runConfig, mkStartResult,
              UnifiedState.v2rayFlag, UnifiedState.mihomoFlag, isV2RayFamily,
              CoreTypeV2Ray, CoreTypeXray, CoreTypeMihomo, hg]
    | some m =>
        have hm : m.isRunning = false := by
          simpa [UnifiedState.mihomoFlag, hg] using hmf
        simp [UnifiedState.RunConfig, hf, hd, hrun, UnifiedState.startMihomoCore,
              MihomoState.runConfig, mkStartResult,
              UnifiedState.v2rayFlag, UnifiedState.mihomoFlag, isV2RayFamily,
              CoreTypeV2Ray, CoreTypeXray, CoreTypeMihomo, hg, hm]

/-! ## Claim C1: at most one engine active across a type switch -/

/-- Claim C1: when `RunConfig` arrives while the manager runs an engine
of a different type than the config targets, the transition first stops
the old engine and cancels its token (`Mark.stopOld true`), and only
then starts the new one (`Mark.started true`): the adapter-boundary
snapshots and the final state never show both singleton core managers
running at once.  Hypotheses are the invariants every reachable running
manager satisfies: a cancel token exists, the current type is valid, the
manager holds the reference to its running adapter, and the other
family's adapter is idle. -/
theorem runConfig_typeSwitch_serializes (env : Env) (s : UnifiedState) (p : String)
    (cfg : Jmap) (T : CoreType)
    (hf : env.fs p = FileContent.doc cfg)
    (hd : readInjectedCoreType cfg = Except.ok T)
    (hrun : s.running = true)
    (hne : ¬ s.coreType = T)
    (hcancel : s.hasCancel = true)
    (hold : s.coreType = CoreTypeV2Ray ∨ s.coreType = CoreTypeXray ∨ s.coreType = CoreTypeMihomo)
    (hrefv2 : isV2RayFamily s.coreType = true → s.v2rayRef = true)
    (hrefmi : s.coreType = CoreTypeMihomo → s.mihomoRef = true)
    (hotherv2 : s.coreType = CoreTypeMihomo → s.v2rayFlag = false)
    (hothermi : isV2RayFamily s.coreType = true → s.mihomoFlag = false) :
    (s.RunConfig env p).err = none ∧
    (s.RunConfig env p).state.running = true ∧
    (s.RunConfig env p).trace.map Prod.fst = [Mark.stopOld true, Mark.started true] ∧
    (∀ q ∈ (s.RunConfig env p).trace,
        ¬ (q.2.v2rayFlag = true ∧ q.2.mihomoFlag = true)) ∧
    ¬ ((s.RunConfig env p).state.v2rayFlag = true ∧
       (s.RunConfig env p).state.mihomoFlag = true) := by
  rcases readInjectedCoreType_ok_valid cfg T hd with hT | hT | hT <;> subst hT <;>
    rcases hold with h | h | h <;>
      first
      | exact absurd h hne
      | ( -- old engine in the V2Ray family
         have hrv := hrefv2 (by rw [h]; rfl)
         have hmf := hothermi (by rw [h]; rfl)
         cases hg : s.v2rayGlobal with
         | none =>
             cases hgm : s.mihomoGlobal with
             | none =>
                 simp [UnifiedState.RunConfig, hf, hd, hrun, hcancel, h, hrv, hmf,
                       UnifiedState.stopRunningCoreLocked, UnifiedState.stopV2RayCore,
                       UnifiedState.stopMihomoCore, V2RayState.stop, MihomoState.stop,
                       UnifiedState.startV2RayCore, UnifiedState.startMihomoCore,
                       NewV2RayCoreManager, NewMihomoCoreManager,
                       V2RayState.runConfig, MihomoState.runConfig, mkStartResult,
                       UnifiedState.v2rayFlag, UnifiedState.mihomoFlag, isV2RayFamily,
                       CoreTypeV2Ray, CoreTypeXray, CoreTypeMihomo, hg, hgm]
             | some m =>
                 have hm : m.isRunning = false := by
                   simpa [UnifiedState.mihomoFlag, hgm] using hmf
                 simp [UnifiedState.RunConfig, hf, hd, hrun, hcancel, h, hrv, hmf,
                       UnifiedState.stopRunningCoreLocked, UnifiedState.stopV2RayCore,
                       UnifiedState.stopMihomoCore, V2RayState.stop, MihomoState.stop,
                       UnifiedState.startV2RayCore, UnifiedState.startMihomoCore,
                       NewV2RayCoreManager, NewMihomoCoreManager,
                       V2RayState.runConfig, MihomoState.runConfig, mkStartResult,
                       UnifiedState.v2rayFlag, UnifiedState.mihomoFlag, isV2RayFamily,
                       CoreTypeV2Ray, CoreTypeXray, CoreTypeMihomo, hg, hgm, hm]
         | some v =>
             cases hvr : v.isRunning <;>
             cases hgm : s.mihomoGlobal with
             | none =>
                 simp [UnifiedState.RunConfig, hf, hd, hrun, hcancel, h, hrv, hmf,
                       UnifiedState.stopRunningCoreLocked, UnifiedState.stopV2RayCore,
                       UnifiedState.stopMihomoCore, V2RayState.stop, MihomoState.stop,
                       UnifiedState.startV2RayCore, UnifiedState.startMihomoCore,
                       NewV2RayCoreManager, NewMihomoCoreManager,
                       V2RayState.runConfig, MihomoState.runConfig, mkStartResult,
                       UnifiedState.v2rayFlag, UnifiedState.mihomoFlag, isV2RayFamily,
                       CoreTypeV2Ray, CoreTypeXray, CoreTypeMihomo, hg, hgm, hvr]
             | some m =>
                 have hm : m.isRunning = false := by
                   simpa [UnifiedState.mihomoFlag, hgm] using hmf
                 simp [UnifiedState.RunConfig, hf, hd, hrun, hcancel, h, hrv, hmf,
                       UnifiedState.stopRunningCoreLocked, UnifiedState.stopV2RayCore,
                       UnifiedState.stopMihomoCore, V2RayState.stop, MihomoState.stop,
                       UnifiedState.startV2RayCore, UnifiedState.startMihomoCore,
                       NewV2RayCoreManager, NewMihomoCoreManager,
                       V2RayState.runConfig, MihomoState.runConfig, mkStartResult,
                       UnifiedState.v2rayFlag, UnifiedState.mihomoFlag, isV2RayFamily,
                       CoreTypeV2Ray, CoreTypeXray, CoreTypeMihomo, hg, hgm, hvr, hm])
      | ( -- old engine Mihomo
         have hrm := hrefmi h
         have hvf := hotherv2 h
         cases hgm : s.mihomoGlobal with
         | none =>
             cases hg : s.v2rayGlobal with
             | none =>
                 simp [UnifiedState.RunConfig, hf, hd, hrun, hcancel, h, hrm, hvf,
                       UnifiedState.stopRunningCoreLocked, UnifiedState.stopV2RayCore,
                       UnifiedState.stopMihomoCore, V2RayState.stop, MihomoState.stop,
                       UnifiedState.startV2RayCore, UnifiedState.startMihomoCore,
                       NewV2RayCoreManager, NewMihomoCoreManager,
                       V2RayState.runConfig, MihomoState.runConfig, mkStartResult,
                       UnifiedState.v2rayFlag, UnifiedState.mihomoFlag, isV2RayFamily,
                       CoreTypeV2Ray, CoreTypeXray, CoreTypeMihomo, hg, hgm]
             | some v =>
                 have hv : v.isRunning = false := by
                   simpa [UnifiedState.v2rayFlag, hg] using hvf
                 simp [UnifiedState.RunConfig, hf, hd, hrun, hcancel, h, hrm, hvf,
                       UnifiedState.stopRunningCoreLocked, UnifiedState.stopV2RayCore,
                       UnifiedState.stopMihomoCore, V2RayState.stop, MihomoState.stop,
                       UnifiedState.startV2RayCore, UnifiedState.startMihomoCore,
                       NewV2RayCoreManager, NewMihomoCoreManager,
                       V2RayState.runConfig, MihomoState.runConfig, mkStartResult,
                       UnifiedState.v2rayFlag, UnifiedState.mihomoFlag, isV2RayFamily,
                       CoreTypeV2Ray, CoreTypeXray, CoreTypeMihomo, hg, hgm, hv]
         | some m =>
             cases hmr : m.isRunning <;>
             cases hg : s.v2rayGlobal with
             | none =>
                 simp [UnifiedState.RunConfig, hf, hd, hrun, hcancel, h, hrm, hvf,
                       UnifiedState.stopRunningCoreLocked, UnifiedState.stopV2RayCore,
                       UnifiedState.stopMihomoCore, V2RayState.stop, MihomoState.stop,
                       UnifiedState.startV2RayCore, UnifiedState.startMihomoCore,
                       NewV2RayCoreManager, NewMihomoCoreManager,
                       V2RayState.runConfig, MihomoState.runConfig, mkStartResult,
                       UnifiedState.v2rayFlag, UnifiedState.mihomoFlag, isV2RayFamily,
                       CoreTypeV2Ray, CoreTypeXray, CoreTypeMihomo, hg, hgm, hmr]
             | some v =>
                 have hv : v.isRunning = false := by
                   simpa [UnifiedState.v2rayFlag, hg] using hvf
                 simp [UnifiedState.RunConfig, hf, hd, hrun, hcancel, h, hrm, hvf,
                       UnifiedState.stopRunningCoreLocked, UnifiedState.stopV2RayCore,
                       UnifiedState.stopMihomoCore, V2RayState.stop, MihomoState.stop,
                       UnifiedState.startV2RayCore, UnifiedState.startMihomoCore,
                       NewV2RayCoreManager, NewMihomoCoreManager,
                       V2RayState.runConfig, MihomoState.runConfig, mkStartResult,
                       UnifiedState.v2rayFlag, UnifiedState.mihomoFlag, isV2RayFamily,
                       CoreTypeV2Ray, CoreTypeXray, CoreTypeMihomo, hg, hgm, hmr, hv])

/-! ## Claim C7: SwitchCoreType -/

theorem Stop_running_eq (s : UnifiedState) (hrun : s.running = true) :
    s.Stop = (none, { (s.stopRunningCoreLocked).2 with configPath := "" }) := by
  unfold UnifiedState.Stop UnifiedState.stopRunningCoreLocked
  rw [if_pos hrun]
  simp only [Prod.mk.injEq]
  constructor
  · split_ifs <;> simp [stopV2RayCore_err, stopMihomoCore_err]
  · trivial

/-- Claim C7 (amended): `SwitchCoreType` on a stopped manager only
changes the held core type (the config-format field it also writes is
already `json` on every constructed manager).  On a running manager it
stops the current engine, adopts the requested type, and re-runs the
previously-used configuration path — but `RunConfig` re-reads the
`coreType` discriminator from that file, so the manager ends `Running`
with the file's engine type, which need not be the requested one (see
the counterexample). -/
theorem SwitchCoreType_spec (env : Env) (s : UnifiedState) (newCT : CoreType)
    (cfg : Jmap) (T : CoreType)
    (hvalid : CoreType.IsValid newCT = true) :
    (s.running = false → s.configFormat = "json" →
        s.SwitchCoreType env newCT = ⟨none, { s with coreType := newCT }, []⟩) ∧
    (s.running = true → ¬ s.configPath = "" →
     env.fs s.configPath = FileContent.doc cfg →
     readInjectedCoreType cfg = Except.ok T →
     (s.coreType = CoreTypeV2Ray ∨ s.coreType = CoreTypeXray ∨ s.coreType = CoreTypeMihomo) →
     (isV2RayFamily s.coreType = true → s.v2rayRef = true) →
     (s.coreType = CoreTypeMihomo → s.mihomoRef = true) →
     (s.coreType = CoreTypeMihomo → s.v2rayFlag = false) →
     (isV2RayFamily s.coreType = true → s.mihomoFlag = false) →
        (s.SwitchCoreType env newCT).err = none ∧
        (s.SwitchCoreType env newCT).state.running = true ∧
        (s.SwitchCoreType env newCT).state.coreType = T) := by
  constructor
  · intro hrun hfmt
    obtain ⟨ct, run, hc, sp, ap, cp, cf, apth, ll, vg, mg, vr, mr⟩ := s
    simp only at hrun hfmt
    subst hrun hfmt
    simp [UnifiedState.SwitchCoreType, UnifiedState.setCoreType, hvalid]
  · intro hrun hp hf hd hold hrefv2 hrefmi hotherv2 hothermi
    obtain ⟨d1, d2, d3, d4, d5, d6, d7, d8, d9, d10, d11, d12⟩ :=
      stopRunningCoreLocked_spec s hold hrefv2 hrefmi hotherv2 hothermi
    have hm := runConfig_stopped_spec env
        { { (s.stopRunningCoreLocked).2 with configPath := "" } with
            coreType := newCT, configFormat := "json" }
        s.configPath cfg T hf hd (by simpa using d2)
        (fun _ => by simpa [UnifiedState.v2rayFlag] using d4)
        (fun _ => by simpa [UnifiedState.mihomoFlag] using d5)
    obtain ⟨e1, e2, e3, _⟩ := hm
    simp only [d2] at e1 e2 e3
    unfold UnifiedState.SwitchCoreType
    simp only [hrun, if_true, Stop_running_eq s hrun, UnifiedState.setCoreType, d2,
               hvalid, hp]
    simp [e1, e2, e3]

/-! ## Projection equations used to track manager fields through a transition -/

theorem stopRunningCoreLocked_running (s : UnifiedState) :
    (s.stopRunningCoreLocked).2.running = false := rfl

theorem stopRunningCoreLocked_socksPort (s : UnifiedState) :
    (s.stopRunningCoreLocked).2.socksPort = s.socksPort := by
  unfold UnifiedState.stopRunningCoreLocked UnifiedState.stopV2RayCore UnifiedState.stopMihomoCore
  split_ifs <;>
    first
    | rfl
    | (cases s.v2rayGlobal <;> rfl)
    | (cases s.mihomoGlobal <;> rfl)

theorem stopRunningCoreLocked_apiPort (s : UnifiedState) :
    (s.stopRunningCoreLocked).2.apiPort = s.apiPort := by
  unfold UnifiedState.stopRunningCoreLocked UnifiedState.stopV2RayCore UnifiedState.stopMihomoCore
  split_ifs <;>
    first
    | rfl
    | (cases s.v2rayGlobal <;> rfl)
    | (cases s.mihomoGlobal <;> rfl)

theorem stopRunningCoreLocked_configPath (s : UnifiedState) :
    (s.stopRunningCoreLocked).2.configPath = s.configPath := by
  unfold UnifiedState.stopRunningCoreLocked UnifiedState.stopV2RayCore UnifiedState.stopMihomoCore
  split_ifs <;>
    first
    | rfl
    | (cases s.v2rayGlobal <;> rfl)
    | (cases s.mihomoGlobal <;> rfl)

theorem startV2RayCore_running (s : UnifiedState) (p : String) :
    (s.startV2RayCore p).2.running = s.running := by
  unfold UnifiedState.startV2RayCore
  cases s.v2rayGlobal <;> simp [V2RayState.runConfig, NewV2RayCoreManager]

theorem startV2RayCore_configPath (s : UnifiedState) (p : String) :
    (s.startV2RayCore p).2.configPath = s.configPath := by
  unfold UnifiedState.startV2RayCore
  cases s.v2rayGlobal <;> simp [V2RayState.runConfig, NewV2RayCoreManager]

theorem startV2RayCore_socksPort (s : UnifiedState) (p : String) :
    (s.startV2RayCore p).2.socksPort = s.socksPort := by
  unfold UnifiedState.startV2RayCore
  cases s.v2rayGlobal <;> simp [V2RayState.runConfig, NewV2RayCoreManager]

theorem startV2RayCore_apiPort (s : UnifiedState) (p : String) :
    (s.startV2RayCore p).2.apiPort = s.apiPort := by
  unfold UnifiedState.startV2RayCore
  cases s.v2rayGlobal <;> simp [V2RayState.runConfig, NewV2RayCoreManager]

theorem startV2RayCore_coreType (s : UnifiedState) (p : String) :
    (s.startV2RayCore p).2.coreType = s.coreType := by
  unfold UnifiedState.startV2RayCore
  cases s.v2rayGlobal <;> simp [V2RayState.runConfig, NewV2RayCoreManager]

theorem startMihomoCore_running (env : Env) (s : UnifiedState) (p : String) :
    (s.startMihomoCore env p).2.running = s.running := by
  unfold UnifiedState.startMihomoCore
  cases s.mihomoGlobal <;> simp [MihomoState.runConfig, NewMihomoCoreManager]

theorem startMihomoCore_configPath (env : Env) (s : UnifiedState) (p : String) :
    (s.startMihomoCore env p).2.configPath = s.configPath := by
  unfold UnifiedState.startMihomoCore
  cases s.mihomoGlobal <;> simp [MihomoState.runConfig, NewMihomoCoreManager]

theorem startMihomoCore_socksPort (env : Env) (s : UnifiedState) (p : String) :
    (s.startMihomoCore env p).2.socksPort = s.socksPort := by
  unfold UnifiedState.startMihomoCore
  cases s.mihomoGlobal <;> simp [MihomoState.runConfig, NewMihomoCoreManager]

theorem startMihomoCore_apiPort (env : Env) (s : UnifiedState) (p : String) :
    (s.startMihomoCore env p).2.apiPort = s.apiPort := by
  unfold UnifiedState.startMihomoCore
  cases s.mihomoGlobal <;> simp [MihomoState.runConfig, NewMihomoCoreManager]

theorem startMihomoCore_coreType (env : Env) (s : UnifiedState) (p : String) :
    (s.startMihomoCore env p).2.coreType = s.coreType := by
  unfold UnifiedState.startMihomoCore
  cases s.mihomoGlobal <;> simp [MihomoState.runConfig, NewMihomoCoreManager]

theorem mkStartResult_err_isSome (dn : String) (r : Option String × UnifiedState)
    (tr : List (Mark × UnifiedState)) :
    (mkStartResult dn r tr).err.isSome = r.1.isSome := by
  obtain ⟨e, st⟩ := r
  cases e <;> simp [mkStartResult]

theorem mkStartResult_running (dn : String) (r : Option String × UnifiedState)
    (tr : List (Mark × UnifiedState)) :
    (mkStartResult dn r tr).state.running =
      if r.1.isSome = true then r.2.running else true := by
  obtain ⟨e, st⟩ := r
  cases e <;> simp [mkStartResult]

theorem mkStartResult_configPath (dn : String) (r : Option String × UnifiedState)
    (tr : List (Mark × UnifiedState)) :
    (mkStartResult dn r tr).state.configPath = r.2.configPath := by
  obtain ⟨e, st⟩ := r
  cases e <;> simp [mkStartResult]

theorem mkStartResult_socksPort (dn : String) (r : Option String × UnifiedState)
    (tr : List (Mark × UnifiedState)) :
    (mkStartResult dn r tr).state.socksPort = r.2.socksPort := by
  obtain ⟨e, st⟩ := r
  cases e <;> simp [mkStartResult]

theorem mkStartResult_apiPort (dn : String) (r : Option String × UnifiedState)
    (tr : List (Mark × UnifiedState)) :
    (mkStartResult dn r tr).state.apiPort = r.2.apiPort := by
  obtain ⟨e, st⟩ := r
  cases e <;> simp [mkStartResult]

theorem mkStartResult_coreType (dn : String) (r : Option String × UnifiedState)
    (tr : List (Mark × UnifiedState)) :
    (mkStartResult dn r tr).state.coreType = r.2.coreType := by
  obtain ⟨e, st⟩ := r
  cases e <;> simp [mkStartResult]

/-! ## Claim C2: failure semantics of RunConfig -/

/-- Claim C2 (amended): on any failure, a `Stopped` manager stays not
running and gets a stage-identifying error, and read/parse/discriminator
failures abort before any engine resource or held field other than the
config path is touched — but the held config path is overwritten with
the attempted path at the very start of the call, so the prior state is
not fully restored (and on an engine-start failure the detected core
type and extracted ports remain applied too; see the counterexample). -/
theorem runConfig_failure_keeps_stopped (env : Env) (s : UnifiedState) (p : String)
    (hrun : s.running = false) :
    ((s.RunConfig env p).err.isSome = true →
        (s.RunConfig env p).state.running = false ∧
        (s.RunConfig env p).state.configPath = p) ∧
    (env.fs p = FileContent.missing →
        s.RunConfig env p =
          ⟨some "failed to read config file", { s with configPath := p }, []⟩) ∧
    (env.fs p = FileContent.unparsable →
        s.RunConfig env p =
          ⟨some "failed to parse injected config as JSON", { s with configPath := p }, []⟩) ∧
    (∀ cfg e, env.fs p = FileContent.doc cfg → readInjectedCoreType cfg = Except.error e →
        s.RunConfig env p = ⟨some e, { s with configPath := p }, []⟩) := by
  refine ⟨?_, ?_, ?_, ?_⟩
  · intro hsome
    cases henv : env.fs p with
    | missing => simp [UnifiedState.RunConfig, henv, hrun]
    | unparsable => simp [UnifiedState.RunConfig, henv, hrun]
    | doc cfg =>
      cases hdet : readInjectedCoreType cfg with
      | error e => simp [UnifiedState.RunConfig, henv, hdet, hrun]
      | ok T =>
        rcases readInjectedCoreType_ok_valid cfg T hdet with hT | hT | hT <;> subst hT <;>
          simp only [UnifiedState.RunConfig, henv, hdet] at hsome ⊢ <;>
          simp_all [hrun, mkStartResult_err_isSome, mkStartResult_running,
                    mkStartResult_configPath,
                    startV2RayCore_running, startV2RayCore_configPath,
                    startMihomoCore_running, startMihomoCore_configPath,
                    isV2RayFamily, CoreTypeV2Ray, CoreTypeXray, CoreTypeMihomo]
  · intro henv
    simp [UnifiedState.RunConfig, henv]
  · intro henv
    simp [UnifiedState.RunConfig, henv]
  · intro cfg e henv hdet
    simp [UnifiedState.RunConfig, henv, hdet]

/-- A stopped manager whose Mihomo singleton is still running (the
singletons are shared between manager instances), holding a prior path,
type and ports. -/
def cxC2State : UnifiedState :=
  { coreType := CoreTypeXray, running := false, hasCancel := false,
    socksPort := 7000, apiPort := 7001, configPath := "old", configFormat := "json",
    assetPath := "", logLevel := "info",
    v2rayGlobal := none,
    mihomoGlobal := some { isRunning := true, socksPort := 1, apiPort := 2,
                           configPath := "x", configDir := "", assetPath := "",
                           logLevel := "info" },
    v2rayRef := false, mihomoRef := false }

def cxC2Env : Env :=
  ⟨fun p => if p = "new" then
      .doc [("coreType", .str "mihomo"), ("mixed-port", .num 8000)]
    else .missing, 3, 4⟩

/-- Claim C2, counterexample: `RunConfig` is not atomic on failure.  An
engine-start failure (the Mihomo singleton is already busy) leaves the
manager stopped, as claimed — but the held config path, core type and
SOCKS port have all been replaced by values from the failed attempt. -/
theorem runConfig_not_atomic_cx :
    (cxC2State.RunConfig cxC2Env "new").err.isSome = true ∧
    (cxC2State.RunConfig cxC2Env "new").state.running = false ∧
    ¬ (cxC2State.RunConfig cxC2Env "new").state.configPath = cxC2State.configPath ∧
    ¬ (cxC2State.RunConfig cxC2Env "new").state.coreType = cxC2State.coreType ∧
    ¬ (cxC2State.RunConfig cxC2Env "new").state.socksPort = cxC2State.socksPort := by
  refine ⟨rfl, rfl, by decide, by decide, by decide⟩

def wC2Env : Env := ⟨fun _ => .missing, 0, 0⟩

/-- Claim C2, witness: a read failure on a fresh manager returns the
read-stage error and changes nothing but the held config path. -/
theorem runConfig_failure_keeps_stopped_witness :
    NewUnifiedCoreManager.running = false ∧
    NewUnifiedCoreManager.RunConfig wC2Env "bad" =
      ⟨some "failed to read config file",
       { NewUnifiedCoreManager with configPath := "bad" }, []⟩ :=
  ⟨rfl, (runConfig_failure_keeps_stopped wC2Env NewUnifiedCoreManager "bad" rfl).2.1 rfl⟩

/-! ## Claim C6: port values in the Running state -/

theorem fallbackPort_bounds (n : Nat) :
    10000 ≤ fallbackPort n ∧ fallbackPort n ≤ 59999 := by
  unfold fallbackPort
  have h := Nat.mod_lt n (show 0 < 50000 by decide)
  omega

theorem resolveSocksPort_ne_zero (cfg : Jmap) (prior : Int) (nanos : Nat) :
    ¬ resolveSocksPort cfg prior nanos = 0 := by
  have hb := fallbackPort_bounds nanos
  unfold resolveSocksPort
  split <;> split_ifs <;> omega

theorem resolveApiPort_ne_zero (cfg : Jmap) (prior : Int) (nanos : Nat) :
    ¬ resolveApiPort cfg prior nanos = 0 := by
  have hb := fallbackPort_bounds nanos
  unfold resolveApiPort
  split
  · split <;> split_ifs <;> omega
  · split_ifs <;> omega

/-- Whenever detection succeeded, the final ports of the transition are
exactly the resolved ones, whether or not the start then succeeded. -/
theorem runConfig_ports_eq (env : Env) (s : UnifiedState) (p : String)
    (cfg : Jmap) (T : CoreType)
    (hf : env.fs p = FileContent.doc cfg)
    (hdet : readInjectedCoreType cfg = Except.ok T) :
    (s.RunConfig env p).state.socksPort = resolveSocksPort cfg s.socksPort env.nanos1 ∧
    (s.RunConfig env p).state.apiPort = resolveApiPort cfg s.apiPort env.nanos2 := by
  rcases readInjectedCoreType_ok_valid cfg T hdet with hT | hT | hT <;> subst hT <;>
    (simp only [UnifiedState.RunConfig, hf, hdet]
     split_ifs <;>
       simp_all [mkStartResult_socksPort, mkStartResult_apiPort,
                 startV2RayCore_socksPort, startV2RayCore_apiPort,
                 startMihomoCore_socksPort, startMihomoCore_apiPort,
                 stopRunningCoreLocked_socksPort, stopRunningCoreLocked_apiPort,
                 stopRunningCoreLocked_running,
                 isV2RayFamily, CoreTypeV2Ray, CoreTypeXray, CoreTypeMihomo])

/-- Claim C6 (amended): after every successful `RunConfig` both ports
are non-zero — a zero port always triggers the clock fallback
`10000 + ns mod 50000 ∈ [10000, 59999]`, so the manager never binds
port 0; and when the config supplies no port field and none was held,
the final port lies in that fallback range.  The `[1,65535]` upper
bound of the claim is, however, not enforced on config-supplied values
(see the counterexample). -/
theorem runConfig_running_port_invariant (env : Env) (s : UnifiedState) (p : String) :
    ((s.RunConfig env p).err = none →
        ¬ (s.RunConfig env p).state.socksPort = 0 ∧
        ¬ (s.RunConfig env p).state.apiPort = 0) ∧
    (∀ cfg, env.fs p = FileContent.doc cfg → (s.RunConfig env p).err = none →
        (∀ n, ¬ cfg.find "mixed-port" = some (JValue.num n)) →
        s.socksPort = 0 →
        10000 ≤ (s.RunConfig env p).state.socksPort ∧
        (s.RunConfig env p).state.socksPort ≤ 59999) ∧
    (∀ cfg, env.fs p = FileContent.doc cfg → (s.RunConfig env p).err = none →
        (∀ v, ¬ cfg.find "external-controller" = some (JValue.str v)) →
        s.apiPort = 0 →
        10000 ≤ (s.RunConfig env p).state.apiPort ∧
        (s.RunConfig env p).state.apiPort ≤ 59999) := by
  refine ⟨?_, ?_, ?_⟩
  · intro hok
    cases henv : env.fs p with
    | missing => simp [UnifiedState.RunConfig, henv] at hok
    | unparsable => simp [UnifiedState.RunConfig, henv] at hok
    | doc cfg =>
      cases hdet : readInjectedCoreType cfg with
      | error e => simp [UnifiedState.RunConfig, henv, hdet] at hok
      | ok T =>
        obtain ⟨k1, k2⟩ := runConfig_ports_eq env s p cfg T henv hdet
        rw [k1, k2]
        exact ⟨resolveSocksPort_ne_zero cfg s.socksPort env.nanos1,
               resolveApiPort_ne_zero cfg s.apiPort env.nanos2⟩
  · intro cfg henv hok hnone hzero
    cases hdet : readInjectedCoreType cfg with
    | error e => simp [UnifiedState.RunConfig, henv, hdet] at hok
    | ok T =>
        obtain ⟨k1, _⟩ := runConfig_ports_eq env s p cfg T henv hdet
        rw [k1]
        cases hfind : cfg.find "mixed-port" with
        | none => simp [resolveSocksPort, hfind, hzero, fallbackPort_bounds]
        | some jv =>
            cases jv <;>
              first
              | exact absurd hfind (hnone _)
              | simp [resolveSocksPort, hfind, hzero, fallbackPort_bounds]
  · intro cfg henv hok hnone hzero
    cases hdet : readInjectedCoreType cfg with
    | error e => simp [UnifiedState.RunConfig, henv, hdet] at hok
    | ok T =>
        obtain ⟨_, k2⟩ := runConfig_ports_eq env s p cfg T henv hdet
        rw [k2]
        cases hfind : cfg.find "external-controller" with
        | none => simp [resolveApiPort, hfind, hzero, fallbackPort_bounds]
        | some jv =>
            cases jv <;>
              first
              | exact absurd hfind (hnone _)
              | simp [resolveApiPort, hfind, hzero, fallbackPort_bounds]

/-! ## Claim C9: optimistic engine start -/

/-- Claim C9: for every configuration file that reads and JSON-parses
with a valid `coreType`, the start path succeeds and the manager reports
running — the document `cfg` is otherwise arbitrary, so nothing about
the embedded engine configuration's validity is ever consulted before
`RunConfig` returns nil: engine loading happens on the background
execution path, whose failures are only logged. -/
theorem runConfig_start_optimistic (env : Env) (s : UnifiedState) (p : String)
    (cfg : Jmap) (v : String) (T : CoreType)
    (hf : env.fs p = FileContent.doc cfg)
    (hfind : cfg.find "coreType" = some (JValue.str v))
    (hpt : ParseCoreType v = Except.ok T)
    (hrun : s.running = false)
    (hv2idle : s.v2rayFlag = false)
    (hmiidle : s.mihomoFlag = false) :
    (s.RunConfig env p).err = none ∧
    (s.RunConfig env p).state.running = true := by
  have hd : readInjectedCoreType cfg = Except.ok T := by
    simp [readInjectedCoreType, hfind, hpt]
  obtain ⟨h1, h2, _⟩ :=
    runConfig_stopped_spec env s p cfg T hf hd hrun (fun _ => hv2idle) (fun _ => hmiidle)
  exact ⟨h1, h2⟩

def wC9Env : Env :=
  ⟨fun p => if p = "g" then
      .doc [("coreType", .str "xray"), ("garbage", .str "not a loadable engine config")]
    else .missing, 1, 2⟩

/-- Claim C9, witness: a document whose only meaningful field is the
discriminator — no inbounds, no outbounds, nothing an engine could load
— still makes `RunConfig` report success and `Running`. -/
theorem runConfig_start_optimistic_witness :
    (NewUnifiedCoreManager.RunConfig wC9Env "g").err = none ∧
    (NewUnifiedCoreManager.RunConfig wC9Env "g").state.running = true :=
  runConfig_start_optimistic wC9Env NewUnifiedCoreManager "g"
    [("coreType", JValue.str "xray"), ("garbage", JValue.str "not a loadable engine config")]
    "xray" CoreTypeXray rfl rfl rfl rfl rfl rfl

/-! ## Remaining witnesses and counterexamples -/

/-- A manager running Mihomo, with the reachable-state invariants. -/
def wC1State : UnifiedState :=
  { coreType := CoreTypeMihomo, running := true, hasCancel := true,
    socksPort := 7000, apiPort := 7001, configPath := "old", configFormat := "json",
    assetPath := "", logLevel := "info",
    v2rayGlobal := none,
    mihomoGlobal := some { isRunning := true, socksPort := 7000, apiPort := 7001,
                           configPath := "old", configDir := "", assetPath := "",
                           logLevel := "info" },
    v2rayRef := false, mihomoRef := true }

def wC1Env : Env :=
  ⟨fun p => if p = "c1" then .doc [("coreType", .str "v2ray")] else .missing, 5, 6⟩

/-- Claim C1, witness: switching a running Mihomo manager to a V2Ray
config stops the old engine (cancelling its token) strictly before the
new start, and ends running. -/
theorem runConfig_typeSwitch_serializes_witness :
    (wC1State.RunConfig wC1Env "c1").err = none ∧
    (wC1State.RunConfig wC1Env "c1").trace.map Prod.fst =
      [Mark.stopOld true, Mark.started true] := by
  have h := runConfig_typeSwitch_serializes wC1Env wC1State "c1"
      [("coreType", JValue.str "v2ray")] CoreTypeV2Ray rfl rfl rfl (by decide) rfl
      (by decide) (by decide) (by decide) (by decide) (by decide)
  exact ⟨h.1, h.2.2.1⟩

def cxC6Env : Env :=
  ⟨fun p => if p = "cfg" then
      .doc [("coreType", .str "mihomo"), ("mixed-port", .num 70000)]
    else .missing, 0, 0⟩

/-- Claim C6, counterexample: a config-supplied port far outside
`[1,65535]` is adopted unvalidated — the manager ends `Running` with
SOCKS port 70000, falsifying the claimed range invariant. -/
theorem runConfig_port_range_cx :
    (NewUnifiedCoreManager.RunConfig cxC6Env "cfg").err = none ∧
    (NewUnifiedCoreManager.RunConfig cxC6Env "cfg").state.running = true ∧
    (NewUnifiedCoreManager.RunConfig cxC6Env "cfg").state.socksPort = 70000 ∧
    ¬ (NewUnifiedCoreManager.RunConfig cxC6Env "cfg").state.socksPort ≤ 65535 := by
  refine ⟨rfl, rfl, rfl, by decide⟩

def wC6Env : Env :=
  ⟨fun p => if p = "w" then .doc [("coreType", .str "v2ray")] else .missing, 123, 456⟩

/-- Claim C6, witness: with no port fields anywhere, a successful start
assigns both ports from the clock fallback range. -/
theorem runConfig_running_port_invariant_witness :
    (NewUnifiedCoreManager.RunConfig wC6Env "w").err = none ∧
    10000 ≤ (NewUnifiedCoreManager.RunConfig wC6Env "w").state.socksPort ∧
    (NewUnifiedCoreManager.RunConfig wC6Env "w").state.socksPort ≤ 59999 := by
  have h := (runConfig_running_port_invariant wC6Env NewUnifiedCoreManager "w").2.1
      [("coreType", JValue.str "v2ray")] rfl rfl
      (fun n hn => Option.noConfusion hn) rfl
  exact ⟨rfl, h.1, h.2⟩

/-- A manager running Mihomo whose last-used config file names Mihomo. -/
def cxC7State : UnifiedState :=
  { coreType := CoreTypeMihomo, running := true, hasCancel := true,
    socksPort := 7000, apiPort := 7001, configPath := "old", configFormat := "json",
    assetPath := "", logLevel := "info",
    v2rayGlobal := none,
    mihomoGlobal := some { isRunning := true, socksPort := 7000, apiPort := 7001,
                           configPath := "old", configDir := "", assetPath := "",
                           logLevel := "info" },
    v2rayRef := false, mihomoRef := true }

def cxC7Env : Env :=
  ⟨fun p => if p = "old" then .doc [("coreType", .str "mihomo")] else .missing, 3, 4⟩

/-- Claim C7, counterexample: `SwitchCoreType(V2Ray)` on a running
Mihomo manager restarts from the saved path, whose `coreType`
discriminator says `mihomo` — so the manager ends `Running` with
`GetCoreType() = Mihomo`, not the requested V2Ray. -/
theorem SwitchCoreType_redetects_cx :
    (cxC7State.SwitchCoreType cxC7Env CoreTypeV2Ray).err = none ∧
    (cxC7State.SwitchCoreType cxC7Env CoreTypeV2Ray).state.running = true ∧
    (cxC7State.SwitchCoreType cxC7Env CoreTypeV2Ray).state.coreType = CoreTypeMihomo ∧
    ¬ (cxC7State.SwitchCoreType cxC7Env CoreTypeV2Ray).state.coreType = CoreTypeV2Ray := by
  refine ⟨rfl, rfl, rfl, by decide⟩

/-- Claim C7, witness: on a stopped manager, `SwitchCoreType` only
changes the held core type. -/
theorem SwitchCoreType_spec_witness :
    CoreType.IsValid CoreTypeMihomo = true ∧
    NewUnifiedCoreManager.SwitchCoreType cxC7Env CoreTypeMihomo =
      ⟨none, { NewUnifiedCoreManager with coreType := CoreTypeMihomo }, []⟩ :=
  ⟨rfl,
   (SwitchCoreType_spec cxC7Env NewUnifiedCoreManager CoreTypeMihomo [] CoreTypeMihomo
     rfl).1 rfl rfl⟩

/-- Claim C10, witness: on a manager that has never run (empty held
path), `Restart` fails with the no-configuration error and changes
nothing. -/
theorem Restart_requires_configPath_witness :
    NewUnifiedCoreManager.configPath = "" ∧
    NewUnifiedCoreManager.Restart wC2Env =
      ⟨some "no configuration path set", NewUnifiedCoreManager, []⟩ :=
  ⟨rfl, (Restart_requires_configPath wC2Env NewUnifiedCoreManager).1 rfl⟩

end LibUnifiedCore
